import Mathlib

/-!
# Verification of the `kafka` consumer library

A shallow embedding of `src/kafka/kafka.go` (package `kafka`, built on the
external `sarama` client) together with proofs about the claim dispatcher,
the typed-handler adapter, the consumer construction and the lifecycle.

Conventions of the embedding:
* Go `[]byte` is `List Nat`; Go `int64` offsets are `Int`.
* A Go `error` value is a `GoError`; a function returning `error` returns
  `Option GoError` (`none` = nil = success), and a constructor returning
  `(T, error)` returns `Except GoError T`.
* External collaborators (`json.Unmarshal`, `sarama.NewConsumerGroup`,
  `sarama.NewConfig`'s own baseline) are parameters of the definitions that
  call them, so every theorem quantifies over their behaviour.
-/

namespace KafkaLib

/-- Go `[]byte`. -/
abbrev Bytes := List Nat

/-- An opaque Go `error` value, compared by identity (`errors.Is` on
sentinel errors is equality of the sentinel). -/
structure GoError where
  code : Nat
deriving DecidableEq, Repr

/-- `context.Context`, reduced to the one observable the library reads. -/
structure GoContext where
  cancelled : Bool
deriving DecidableEq, Repr

/-- `sarama.ConsumerMessage` — the fields this library touches. -/
structure ConsumerMessage where
  topic : String
  partition : Int
  offset : Int
  key : Bytes
  value : Bytes
deriving DecidableEq, Repr

/-- `MessageHandler` (kafka.go:19): `func(ctx, msg) error`. -/
abbrev MessageHandler := GoContext → ConsumerMessage → Option GoError

/-- `TypedMessageHandler[E]` (kafka.go:23). -/
abbrev TypedMessageHandler (E : Type) := GoContext → ConsumerMessage → E → Option GoError

/-! ## The claim dispatcher (`cgHandler.ConsumeClaim`, kafka.go:159-167)

The dispatcher's loop
```go
for msg := range claim.Messages() {
    if err := h.handler(sess.Context(), msg); err == nil {
        sess.MarkMessage(msg, "")
    }
}
```
is embedded as the trace of observable events it performs on the stream of
messages the claim delivers, in order: pulling a message from the channel,
invoking the handler, and marking the offset on the session. -/

/-- One observable step of `ConsumeClaim`. -/
inductive ClaimEvent where
  /-- A message is received from `claim.Messages()`. -/
  | pull (msg : ConsumerMessage)
  /-- `h.handler(sess.Context(), msg)` returns `err`. -/
  | handle (msg : ConsumerMessage) (err : Option GoError)
  /-- `sess.MarkMessage(msg, "")`. -/
  | mark (msg : ConsumerMessage)
deriving DecidableEq, Repr

/-- The event trace of `ConsumeClaim` (kafka.go:159-167) run over the stream
`msgs` of one partition claim, with the session context `ctx`. -/
def consumeClaimTrace (ctx : GoContext) (handler : MessageHandler) :
    List ConsumerMessage → List ClaimEvent
  | [] => []
  | msg :: rest =>
    ClaimEvent.pull msg :: ClaimEvent.handle msg (handler ctx msg) ::
      ((match handler ctx msg with
        | none => [ClaimEvent.mark msg]
        | some _ => []) ++ consumeClaimTrace ctx handler rest)

/-- The session's marked (committed) position for the claim's partition after
`ConsumeClaim` processes `msgs`: `sess.MarkMessage(msg, "")` records
`msg.offset`, and only runs when the handler returned nil. -/
def runClaimCommitted (ctx : GoContext) (handler : MessageHandler)
    (committed : Option Int) : List ConsumerMessage → Option Int
  | [] => committed
  | msg :: rest =>
    runClaimCommitted ctx handler
      (match handler ctx msg with
       | none => some msg.offset
       | some _ => committed) rest

/-- The message a `mark` event commits, if any. -/
def markedMsg : ClaimEvent → Option ConsumerMessage
  | ClaimEvent.mark m => some m
  | _ => none

theorem consumeClaimTrace_append (ctx : GoContext) (handler : MessageHandler)
    (l₁ l₂ : List ConsumerMessage) :
    consumeClaimTrace ctx handler (l₁ ++ l₂) =
      consumeClaimTrace ctx handler l₁ ++ consumeClaimTrace ctx handler l₂ := by
  induction l₁ with
  | nil => simp [consumeClaimTrace]
  | cons m rest ih =>
    cases h : handler ctx m <;> simp [consumeClaimTrace, h, ih]

theorem consumeClaimTrace_marks (ctx : GoContext) (handler : MessageHandler)
    (msgs : List ConsumerMessage) :
    (consumeClaimTrace ctx handler msgs).filterMap markedMsg =
      msgs.filter (fun m => (handler ctx m).isNone) := by
  induction msgs with
  | nil => rfl
  | cons m rest ih =>
    simp only [consumeClaimTrace]
    cases h : handler ctx m <;>
      simp [List.filterMap_append, List.filterMap, markedMsg, ih, List.filter, h]

theorem runClaimCommitted_all_ok (ctx : GoContext) (handler : MessageHandler)
    (m : ConsumerMessage) (hm : handler ctx m = none) :
    ∀ (msgs : List ConsumerMessage) (c₀ : Option Int),
      (∀ x ∈ msgs, handler ctx x = none) →
      runClaimCommitted ctx handler c₀ (msgs ++ [m]) = some m.offset := by
  intro msgs
  induction msgs with
  | nil => intro c₀ _; simp [runClaimCommitted, hm]
  | cons x rest ih =>
    intro c₀ h
    have hx : handler ctx x = none := h x (by simp)
    simp only [List.cons_append, runClaimCommitted, hx]
    exact ih _ (fun y hy => h y (by simp [hy]))

/-! ## The typed-handler adapter (kafka.go:25-70)

Go's `decode func([]byte, *E) error` reads the bytes and writes through the
pointer; it is embedded as `Bytes → E → Except GoError E`, taking the value
`*E` held before the call and returning the value it holds after a nil
return.  `json.Unmarshal` is an external collaborator, passed in as the
`jsonUnmarshal` parameter wherever the source calls it. -/

/-- `handlerConfig[E]` (kafka.go:28-31). -/
structure handlerConfig (E : Type) where
  newEvent : Unit → E
  decode : Bytes → E → Except GoError E

/-- `HandlerOption[E]` (kafka.go:26). -/
abbrev HandlerOption (E : Type) := handlerConfig E → handlerConfig E

/-- `WithNewEvent` (kafka.go:35-37). -/
def WithNewEvent {E : Type} (fn : Unit → E) : HandlerOption E :=
  fun c => { c with newEvent := fn }

/-- `WithDecoder` (kafka.go:41-43). -/
def WithDecoder {E : Type} (fn : Bytes → E → Except GoError E) : HandlerOption E :=
  fun c => { c with decode := fn }

/-- `WithJSONDecoder` (kafka.go:46-50). -/
def WithJSONDecoder {E : Type} (jsonUnmarshal : Bytes → E → Except GoError E) :
    HandlerOption E :=
  fun c => { c with decode := fun b dst => jsonUnmarshal b dst }

/-- The configuration `AdaptTypedHandler` resolves (kafka.go:56-62): the
defaults — `func() E { var zero E; return zero }` (the zero value of `E` is
`default`) and JSON decoding — then every option applied in order. -/
def adaptConfig {E : Type} [Inhabited E] (jsonUnmarshal : Bytes → E → Except GoError E)
    (opts : List (HandlerOption E)) : handlerConfig E :=
  opts.foldl (fun c o => o c)
    { newEvent := fun _ => (default : E)
      decode := fun b dst => jsonUnmarshal b dst }

/-- `AdaptTypedHandler` (kafka.go:55-70): the returned `MessageHandler`
constructs a fresh event, decodes the message value into it, and on success
invokes the typed handler with the decoded event and the original message;
a decode error is returned as the handler's own error. -/
def AdaptTypedHandler {E : Type} [Inhabited E]
    (jsonUnmarshal : Bytes → E → Except GoError E) (th : TypedMessageHandler E)
    (opts : List (HandlerOption E)) : MessageHandler :=
  let cfg := adaptConfig jsonUnmarshal opts
  fun ctx msg =>
    match cfg.decode msg.value (cfg.newEvent ()) with
    | Except.error e => some e
    | Except.ok evt => th ctx msg evt

/-! ## Consumer configuration (kafka.go:81-101, 169-226)

`sarama.Config` is reduced to the fields this library writes.  What
`sarama.NewConfig()` itself fills in is external, so it enters as the
`base` parameter; `NewConsumer` overwrites the fields below before applying
the caller's options. -/

/-- `sarama.KafkaVersion` (an opaque 4-component version). -/
structure KafkaVersion where
  v₀ : Nat
  v₁ : Nat
  v₂ : Nat
  v₃ : Nat
deriving DecidableEq, Repr

/-- `sarama.V2_8_0_0`. -/
def V2_8_0_0 : KafkaVersion := ⟨2, 8, 0, 0⟩

/-- The rebalance strategies the library selects among. -/
inductive BalanceStrategy where
  | range
  | roundRobin
  | sticky
deriving DecidableEq, Repr

/-- Go `time.Duration` in nanoseconds. -/
abbrev Duration := Nat

/-- `time.Second`. -/
def second : Duration := 1000000000

/-- `sarama.OffsetNewest`. -/
def OffsetNewest : Int := -1

/-- `sarama.OffsetOldest`. -/
def OffsetOldest : Int := -2

/-- The fields of `sarama.Config` that `kafka.go` writes. -/
structure SaramaConfig where
  clientID : String
  version : KafkaVersion
  consumerReturnErrors : Bool
  groupHeartbeatInterval : Duration
  groupSessionTimeout : Duration
  groupRebalanceTimeout : Duration
  groupRebalanceStrategy : BalanceStrategy
  offsetsAutoCommitEnable : Bool
  offsetsAutoCommitInterval : Duration
  offsetsInitial : Int
  netDialTimeout : Duration
  netReadTimeout : Duration
  netWriteTimeout : Duration
  netTLSEnable : Bool
  netTLSInsecureSkipVerify : Bool
  netSASLEnable : Bool
  netSASLUser : String
  netSASLPassword : String
  netSASLMechanism : String
deriving Repr

/-- `ConsumerOption` (kafka.go:82): an arbitrary mutation of the config. -/
abbrev ConsumerOption := SaramaConfig → SaramaConfig

/-- `WithConsumerClientID` (kafka.go:172-174). -/
def WithConsumerClientID (clientID : String) : ConsumerOption :=
  fun cfg => { cfg with clientID := clientID }

/-- `WithConsumerVersion` (kafka.go:177-179). -/
def WithConsumerVersion (version : KafkaVersion) : ConsumerOption :=
  fun cfg => { cfg with version := version }

/-- `WithInitialOffset` (kafka.go:182-184). -/
def WithInitialOffset (offset : Int) : ConsumerOption :=
  fun cfg => { cfg with offsetsInitial := offset }

/-- `WithRebalanceStrategy` (kafka.go:187-189). -/
def WithRebalanceStrategy (strategy : BalanceStrategy) : ConsumerOption :=
  fun cfg => { cfg with groupRebalanceStrategy := strategy }

/-- `WithGroupSessionTimeout` (kafka.go:192-194). -/
def WithGroupSessionTimeout (d : Duration) : ConsumerOption :=
  fun cfg => { cfg with groupSessionTimeout := d }

/-- `WithGroupHeartbeatInterval` (kafka.go:197-199). -/
def WithGroupHeartbeatInterval (d : Duration) : ConsumerOption :=
  fun cfg => { cfg with groupHeartbeatInterval := d }

/-- `WithNetTimeouts` (kafka.go:202-208). -/
def WithNetTimeouts (dial read write : Duration) : ConsumerOption :=
  fun cfg => { cfg with netDialTimeout := dial, netReadTimeout := read, netWriteTimeout := write }

/-- `WithTLSEnable` (kafka.go:211-216). -/
def WithTLSEnable (insecureSkipVerify : Bool) : ConsumerOption :=
  fun cfg => { cfg with netTLSEnable := true, netTLSInsecureSkipVerify := insecureSkipVerify }

/-- `WithSASLPlain` (kafka.go:219-226). -/
def WithSASLPlain (username password : String) : ConsumerOption :=
  fun cfg =>
    { cfg with
      netSASLEnable := true
      netSASLUser := username
      netSASLPassword := password
      netSASLMechanism := "PLAIN" }

/-- The defaults `NewConsumer` writes into `sarama.NewConfig()`'s result
before applying any caller option (kafka.go:86-97). -/
def newConsumerDefaults (base : SaramaConfig) : SaramaConfig :=
  { base with
    clientID := "go-lib-kafka"
    version := V2_8_0_0
    consumerReturnErrors := true
    groupHeartbeatInterval := 3 * second
    groupSessionTimeout := 30 * second
    groupRebalanceTimeout := 30 * second
    groupRebalanceStrategy := BalanceStrategy.range
    offsetsAutoCommitEnable := true
    offsetsAutoCommitInterval := 1 * second
    offsetsInitial := OffsetNewest }

/-- The config `NewConsumer` hands to `sarama.NewConsumerGroup`
(kafka.go:86-101): the defaults, then the caller's options in order. -/
def newConsumerConfig (base : SaramaConfig) (options : List ConsumerOption) : SaramaConfig :=
  options.foldl (fun cfg opt => opt cfg) (newConsumerDefaults base)

/-! ## The consumer and its lifecycle (kafka.go:72-151) -/

/-- A handle on a `sarama.ConsumerGroup` — opaque to this library. -/
structure ConsumerGroup where
  id : Nat
deriving DecidableEq, Repr

/-- `Consumer` (kafka.go:72-79).  `cancel` is nil (`none`) until `Start`
stores the `context.CancelFunc`; `wgCount` is the counter of `c.wg`
(zero for the zero-valued `sync.WaitGroup`). -/
structure Consumer where
  group : ConsumerGroup
  topics : List String
  handler : MessageHandler
  cancel : Option Unit
  wgCount : Nat

/-- `NewConsumer` (kafka.go:85-112).  `newConsumerGroup` stands for the
external `sarama.NewConsumerGroup`; on its error the error is returned and
no consumer; otherwise the consumer literal of kafka.go:107-111, whose
remaining fields (`cancel`, `wg`) are Go zero values. -/
def NewConsumer (newConsumerGroup : List String → String → SaramaConfig → Except GoError ConsumerGroup)
    (base : SaramaConfig) (brokers : List String) (groupID : String)
    (topics : List String) (handler : MessageHandler)
    (options : List ConsumerOption) : Except GoError Consumer :=
  let cfg := newConsumerConfig base options
  match newConsumerGroup brokers groupID cfg with
  | Except.error e => Except.error e
  | Except.ok group =>
    Except.ok { group := group, topics := topics, handler := handler, cancel := none, wgCount := 0 }

/-- `Consumer.Start` (kafka.go:114-143) as its effect on the consumer's own
state: it stores the cancel function and leaves the wait-group counter at 2
(`c.wg.Add(1)` at kafka.go:117 and again at kafka.go:119), having spawned
the error-drain goroutine (kafka.go:120-127) and the consume-loop goroutine
(kafka.go:129-142), each of which runs `defer c.wg.Done()` once. -/
def Consumer.Start (c : Consumer) : Consumer :=
  { c with cancel := some (), wgCount := 2 }

/-- What a call of `Consumer.Close` (kafka.go:145-151) does before any
suspended wait resumes. -/
inductive CloseOutcome where
  /-- A nil function value was called. -/
  | panicked
  /-- `c.wg.Wait()` (kafka.go:149) suspends: the counter is non-zero, so the
  call returns only if every counted goroutine later calls `Done`. -/
  | blocked
  /-- `Close` returns `c.group.Close()`'s result (kafka.go:150). -/
  | returned (err : Option GoError)
deriving DecidableEq, Repr

/-- Calling a Go function value: calling a nil `context.CancelFunc` is a
runtime panic. -/
def callCancelFunc : Option Unit → Except Unit Unit
  | none => Except.error ()
  | some _ => Except.ok ()

/-- `Consumer.Close` (kafka.go:145-151): `if c.cancel != nil { c.cancel() }`,
then `c.wg.Wait()`, then `return c.group.Close()`.  `groupCloseErr` is the
external result of `c.group.Close()`. -/
def Consumer.Close (c : Consumer) (groupCloseErr : Option GoError) : CloseOutcome :=
  match (if c.cancel.isSome then callCancelFunc c.cancel else Except.ok ()) with
  | Except.error _ => CloseOutcome.panicked
  | Except.ok _ =>
    if c.wgCount = 0 then CloseOutcome.returned groupCloseErr else CloseOutcome.blocked

/-- A completed run of `Consumer.Close` after `Start`, as the times at which
its events would have to happen.  The constraints are those of the source
and of the drained stream's contract:
* kafka.go:149-150 — `c.group.Close()` is entered only after `c.wg.Wait()`
  returns (`waitBeforeGroupClose`);
* kafka.go:119-121 — the error-drain goroutine is counted in `c.wg`
  (`Add` at 119, deferred `Done` at 121), so `Wait` returns only after that
  goroutine exits (`drainBeforeWait`);
* the `Errors()` stream of the group is closed only by the group's `Close`
  (`groupCloseBeforeErrorsClosed`);
* kafka.go:122 — `for err := range c.group.Errors()` exits only once that
  stream is closed (`errorsClosedBeforeDrainExit`). -/
structure CloseAfterStartExec where
  drainExit : Nat
  wgWaitDone : Nat
  groupCloseBegin : Nat
  errorsClosed : Nat
  waitBeforeGroupClose : wgWaitDone < groupCloseBegin
  drainBeforeWait : drainExit < wgWaitDone
  groupCloseBeforeErrorsClosed : groupCloseBegin ≤ errorsClosed
  errorsClosedBeforeDrainExit : errorsClosed < drainExit

/-! ## The rejoin loop (kafka.go:129-142)

Each iteration calls the blocking `c.group.Consume`; the environment of one
run is the finite list of what each call returned and whether `ctx.Err()`
was non-nil at the check that follows it. -/

/-- The error `c.group.Consume` returned, `sarama.ErrClosedConsumerGroup`
distinguished because kafka.go:133 tests it with `errors.Is`. -/
inductive ConsumeErr where
  | closedConsumerGroup
  | other (code : Nat)
deriving DecidableEq, Repr

/-- One iteration's environment: what `Consume` returned (kafka.go:132) and
whether `ctx.Err() != nil` at kafka.go:138. -/
structure LoopIter where
  consumeErr : Option ConsumeErr
  ctxErr : Bool
deriving DecidableEq, Repr

/-- Which `return` ended the loop. -/
inductive LoopExit where
  /-- kafka.go:134 — the group reported itself closed. -/
  | groupClosed
  /-- kafka.go:139 — the context was cancelled. -/
  | ctxCancelled
deriving DecidableEq, Repr

/-- The rejoin loop (kafka.go:131-141) driven by the environment `iters`:
how it exited (`none` = it is still looping after `iters` is exhausted)
and the errors it logged at kafka.go:136, in order. -/
def rejoinLoop : List LoopIter → Option LoopExit × List ConsumeErr
  | [] => (none, [])
  | it :: rest =>
    match it.consumeErr with
    | some ConsumeErr.closedConsumerGroup => (some LoopExit.groupClosed, [])
    | some e =>
      if it.ctxErr then (some LoopExit.ctxCancelled, [e])
      else
        let r := rejoinLoop rest
        (r.1, e :: r.2)
    | none =>
      if it.ctxErr then (some LoopExit.ctxCancelled, [])
      else rejoinLoop rest

/-! ## The `OFFSET_INITIAL` branch of `NewConsumerFromEnv` (kafka.go:260-267) -/

/-- `strings.ToLower`, character by character (rune-wise lowering). -/
def goToLower (s : String) : String :=
  ⟨s.data.map Char.toLower⟩

/-- `strings.TrimSpace`: whitespace stripped from both ends. -/
def goTrimSpace (s : String) : String :=
  ⟨((s.data.dropWhile Char.isWhitespace).reverse.dropWhile Char.isWhitespace).reverse⟩

/-- The option the `OFFSET_INITIAL` branch appends for the raw value of the
environment variable: nothing when the trimmed value is empty, otherwise
`WithInitialOffset(sarama.OffsetOldest)` exactly for `"oldest"` (lower-cased)
and `WithInitialOffset(sarama.OffsetNewest)` for everything else. -/
def offsetInitialOptionFromEnv (raw : String) : Option ConsumerOption :=
  let v := goTrimSpace raw
  if v = "" then none
  else if goToLower v = "oldest" then some (WithInitialOffset OffsetOldest)
  else some (WithInitialOffset OffsetNewest)

/-! ## Concrete instances used to evaluate the theorems -/

/-- A message of partition 0 at offset `o`. -/
def msgAt (o : Int) : ConsumerMessage :=
  { topic := "t", partition := 0, offset := o, key := [], value := [] }

/-- A handler that fails exactly at offset 5. -/
def failAt5 : MessageHandler :=
  fun _ m => if m.offset = 5 then some ⟨7⟩ else none

/-- C1: on one partition claim, when the handler returns success for an
envelope the dispatcher marks that offset committed before pulling the next
envelope (the trace around a successful message is
`… pull msg, handle msg, mark msg, pull next …`), and when the handler
succeeds on every envelope the committed position after the run equals the
offset of the last envelope. -/
theorem consumeClaim_commit_before_next_pull (ctx : GoContext) (handler : MessageHandler) :
    (∀ pre msg next post, handler ctx msg = none →
      consumeClaimTrace ctx handler (pre ++ msg :: next :: post) =
        consumeClaimTrace ctx handler pre ++
          [ClaimEvent.pull msg, ClaimEvent.handle msg none, ClaimEvent.mark msg] ++
          consumeClaimTrace ctx handler (next :: post)) ∧
    (∀ next post, ∃ t, consumeClaimTrace ctx handler (next :: post) =
      ClaimEvent.pull next :: t) ∧
    (∀ msgs m c₀, (∀ x ∈ msgs, handler ctx x = none) → handler ctx m = none →
      runClaimCommitted ctx handler c₀ (msgs ++ [m]) = some m.offset) := by
  refine ⟨?_, ?_, ?_⟩
  · intro pre msg next post hok
    rw [consumeClaimTrace_append]
    simp [consumeClaimTrace, hok]
  · intro next post
    exact ⟨_, rfl⟩
  · intro msgs m c₀ hall hm
    exact runClaimCommitted_all_ok ctx handler m hm msgs c₀ hall

/-- Evaluation of `consumeClaim_commit_before_next_pull` at a concrete
always-succeeding handler and stream. -/
theorem consumeClaim_commit_before_next_pull_witness :
    consumeClaimTrace ⟨false⟩ (fun _ _ => none) ([] ++ msgAt 1 :: msgAt 2 :: []) =
      consumeClaimTrace ⟨false⟩ (fun _ _ => none) [] ++
        [ClaimEvent.pull (msgAt 1), ClaimEvent.handle (msgAt 1) none,
          ClaimEvent.mark (msgAt 1)] ++
        consumeClaimTrace ⟨false⟩ (fun _ _ => none) (msgAt 2 :: []) :=
  (consumeClaim_commit_before_next_pull ⟨false⟩ (fun _ _ => none)).1 [] (msgAt 1) (msgAt 2) []
    rfl

/-- C2: for an envelope on which the handler errors, the dispatcher emits no
`mark` event for it — the trace around it is `… pull msg, handle msg …`
directly followed by the rest of the stream (no retry of the failed
envelope) — the offset of an erroring envelope is never marked, and the
messages marked over a whole run are exactly those on which the handler
succeeded, in order. -/
theorem consumeClaim_error_skips_commit (ctx : GoContext) (handler : MessageHandler) :
    (∀ pre msg post e, handler ctx msg = some e →
      consumeClaimTrace ctx handler (pre ++ msg :: post) =
        consumeClaimTrace ctx handler pre ++
          [ClaimEvent.pull msg, ClaimEvent.handle msg (some e)] ++
          consumeClaimTrace ctx handler post) ∧
    (∀ msgs msg, handler ctx msg ≠ none →
      ClaimEvent.mark msg ∉ consumeClaimTrace ctx handler msgs) ∧
    (∀ msgs, (consumeClaimTrace ctx handler msgs).filterMap markedMsg =
      msgs.filter (fun m => (handler ctx m).isNone)) := by
  refine ⟨?_, ?_, consumeClaimTrace_marks ctx handler⟩
  · intro pre msg post e herr
    rw [consumeClaimTrace_append]
    simp [consumeClaimTrace, herr]
  · intro msgs msg hne hmem
    have hmm : msg ∈ (consumeClaimTrace ctx handler msgs).filterMap markedMsg :=
      List.mem_filterMap.mpr ⟨ClaimEvent.mark msg, hmem, rfl⟩
    rw [consumeClaimTrace_marks] at hmm
    have := List.of_mem_filter hmm
    exact hne (Option.isNone_iff_eq_none.mp this)

/-- Evaluation of `consumeClaim_error_skips_commit` at the spec scenario:
the handler fails only at offset 5, and offset 5 is never marked. -/
theorem consumeClaim_error_skips_commit_witness :
    ClaimEvent.mark (msgAt 5) ∉
      consumeClaimTrace ⟨false⟩ failAt5 [msgAt 4, msgAt 5, msgAt 6] :=
  (consumeClaim_error_skips_commit ⟨false⟩ failAt5).2.1 [msgAt 4, msgAt 5, msgAt 6] (msgAt 5)
    (by decide)

/-- C3 (refuted on the code): after `Start`, `Close` can never return.
`Close` suspends in `c.wg.Wait()` (the wait-group counter is 2), and no
assignment of times to the events of a completed `Close` satisfies the
ordering constraints of the source: `wg.Wait()` returns only after the
error-drain goroutine exits, the drain exits only after the `Errors()`
stream is closed, that stream is closed only by `c.group.Close()`, and
`c.group.Close()` runs only after `wg.Wait()` returned. -/
theorem close_after_start_deadlocks :
    IsEmpty CloseAfterStartExec ∧
    ∀ (c : Consumer) (groupCloseErr : Option GoError),
      Consumer.Close (Consumer.Start c) groupCloseErr = CloseOutcome.blocked := by
  constructor
  · refine ⟨fun e => ?_⟩
    obtain ⟨d, w, g, ec, h₁, h₂, h₃, h₄⟩ := e
    omega
  · intro c groupCloseErr
    rfl

/-- C4: the rejoin loop exits exactly when some `Consume` call returns the
closed-group error or the context is cancelled at the check that follows
it; in an environment with neither, the loop is still running after every
iteration and has logged precisely the (non-closed) errors returned, in
order. -/
theorem rejoinLoop_exit_iff_closed_or_cancelled (iters : List LoopIter) :
    ((rejoinLoop iters).1.isSome ↔
      ∃ it ∈ iters, it.consumeErr = some ConsumeErr.closedConsumerGroup ∨ it.ctxErr = true) ∧
    ((∀ it ∈ iters, it.consumeErr ≠ some ConsumeErr.closedConsumerGroup ∧ it.ctxErr = false) →
      rejoinLoop iters = (none, iters.filterMap (fun it => it.consumeErr))) := by
  constructor
  · induction iters with
    | nil => simp [rejoinLoop]
    | cons it rest ih =>
      cases hc : it.consumeErr with
      | none => cases hx : it.ctxErr <;> simp [rejoinLoop, hc, hx, ih]
      | some e =>
        cases e with
        | closedConsumerGroup => simp [rejoinLoop, hc]
        | other code => cases hx : it.ctxErr <;> simp [rejoinLoop, hc, hx, ih]
  · induction iters with
    | nil => intro _; simp [rejoinLoop]
    | cons it rest ih =>
      intro h
      obtain ⟨h₁, h₂⟩ := h it (by simp)
      have hr := ih (fun x hx => h x (by simp [hx]))
      cases hc : it.consumeErr with
      | none => simp [rejoinLoop, hc, h₂, hr]
      | some e =>
        cases e with
        | closedConsumerGroup => exact absurd hc h₁
        | other code => simp [rejoinLoop, hc, h₂, hr]

/-- Evaluation of `rejoinLoop_exit_iff_closed_or_cancelled` at a concrete
environment: one transient error, then a closed-group return. -/
theorem rejoinLoop_exit_iff_closed_or_cancelled_witness :
    (rejoinLoop [⟨some (ConsumeErr.other 3), false⟩,
      ⟨some ConsumeErr.closedConsumerGroup, false⟩]).1.isSome :=
  (rejoinLoop_exit_iff_closed_or_cancelled
    [⟨some (ConsumeErr.other 3), false⟩,
      ⟨some ConsumeErr.closedConsumerGroup, false⟩]).1.mpr (by decide)

/-- C5: the adapter returned by `AdaptTypedHandler` decodes the message
value into a freshly constructed event; a decode error becomes the
adapter's own error, and on a successful decode the typed handler is
invoked with the decoded value, the original message and the context. -/
theorem adaptTypedHandler_decode_then_invoke {E : Type} [Inhabited E]
    (jsonUnmarshal : Bytes → E → Except GoError E) (th : TypedMessageHandler E)
    (opts : List (HandlerOption E)) (ctx : GoContext) (msg : ConsumerMessage) :
    (∀ e, (adaptConfig jsonUnmarshal opts).decode msg.value
        ((adaptConfig jsonUnmarshal opts).newEvent ()) = Except.error e →
      AdaptTypedHandler jsonUnmarshal th opts ctx msg = some e) ∧
    (∀ evt, (adaptConfig jsonUnmarshal opts).decode msg.value
        ((adaptConfig jsonUnmarshal opts).newEvent ()) = Except.ok evt →
      AdaptTypedHandler jsonUnmarshal th opts ctx msg = th ctx msg evt) := by
  constructor <;> intro x hx <;> simp [AdaptTypedHandler, hx]

/-- Evaluation of `adaptTypedHandler_decode_then_invoke` at a decoder that
always fails: the adapter surfaces the decode error. -/
theorem adaptTypedHandler_decode_then_invoke_witness :
    AdaptTypedHandler (E := Nat) (fun _ _ => Except.error ⟨1⟩) (fun _ _ _ => none) []
      ⟨false⟩ (msgAt 1) = some ⟨1⟩ :=
  (adaptTypedHandler_decode_then_invoke (E := Nat) (fun _ _ => Except.error ⟨1⟩)
    (fun _ _ _ => none) [] ⟨false⟩ (msgAt 1)).1 ⟨1⟩ rfl

/-- C6: with no options the adapter configuration is the zero-value event
constructor and JSON decoding; `WithNewEvent` and `WithDecoder` replace the
respective default. -/
theorem adaptConfig_defaults_and_replacement {E : Type} [Inhabited E]
    (jsonUnmarshal : Bytes → E → Except GoError E) :
    ((adaptConfig jsonUnmarshal ([] : List (HandlerOption E))).newEvent =
      fun _ => (default : E)) ∧
    ((adaptConfig jsonUnmarshal ([] : List (HandlerOption E))).decode = jsonUnmarshal) ∧
    (∀ opts fn, (adaptConfig jsonUnmarshal (opts ++ [WithNewEvent fn])).newEvent = fn) ∧
    (∀ opts fn, (adaptConfig jsonUnmarshal (opts ++ [WithDecoder fn])).decode = fn) := by
  refine ⟨rfl, rfl, ?_, ?_⟩ <;> intro opts fn <;>
    simp [adaptConfig, List.foldl_append, WithNewEvent, WithDecoder]

/-- C7: `NewConsumer` seeds the config with the library defaults — client
id `"go-lib-kafka"`, initial offset newest, range rebalancing, 3s
heartbeat, 30s session timeout, 30s rebalance timeout, 1s auto-commit
interval — then applies the caller options in order after the defaults, so
any option appended last decides its field. -/
theorem newConsumerConfig_defaults_then_options (base : SaramaConfig) :
    (newConsumerConfig base []).clientID = "go-lib-kafka" ∧
    (newConsumerConfig base []).offsetsInitial = OffsetNewest ∧
    (newConsumerConfig base []).groupRebalanceStrategy = BalanceStrategy.range ∧
    (newConsumerConfig base []).groupHeartbeatInterval = 3 * second ∧
    (newConsumerConfig base []).groupSessionTimeout = 30 * second ∧
    (newConsumerConfig base []).groupRebalanceTimeout = 30 * second ∧
    (newConsumerConfig base []).offsetsAutoCommitInterval = 1 * second ∧
    (∀ options, newConsumerConfig base options =
      options.foldl (fun cfg opt => opt cfg) (newConsumerDefaults base)) ∧
    (∀ options opt, newConsumerConfig base (options ++ [opt]) =
      opt (newConsumerConfig base options)) ∧
    (∀ options s, (newConsumerConfig base
      (options ++ [WithConsumerClientID s])).clientID = s) ∧
    (∀ options off, (newConsumerConfig base
      (options ++ [WithInitialOffset off])).offsetsInitial = off) ∧
    (∀ options st, (newConsumerConfig base
      (options ++ [WithRebalanceStrategy st])).groupRebalanceStrategy = st) ∧
    (∀ options d, (newConsumerConfig base
      (options ++ [WithGroupHeartbeatInterval d])).groupHeartbeatInterval = d) ∧
    (∀ options d, (newConsumerConfig base
      (options ++ [WithGroupSessionTimeout d])).groupSessionTimeout = d) := by
  refine ⟨rfl, rfl, rfl, rfl, rfl, rfl, rfl, fun _ => rfl, ?_, ?_, ?_, ?_, ?_, ?_⟩ <;>
    intro options x <;>
    simp [newConsumerConfig, List.foldl_append, WithConsumerClientID, WithInitialOffset,
      WithRebalanceStrategy, WithGroupHeartbeatInterval, WithGroupSessionTimeout]

/-- C8: when the external group construction fails, `NewConsumer` returns
exactly that error and no consumer; when it succeeds, it returns the
consumer holding the group, the topics and the handler (and no lifecycle
state: nil cancel, zero wait-group). -/
theorem newConsumer_surfaces_group_error
    (newConsumerGroup : List String → String → SaramaConfig → Except GoError ConsumerGroup)
    (base : SaramaConfig) (brokers : List String) (groupID : String)
    (topics : List String) (handler : MessageHandler) (options : List ConsumerOption) :
    (∀ e, newConsumerGroup brokers groupID (newConsumerConfig base options) = Except.error e →
      NewConsumer newConsumerGroup base brokers groupID topics handler options =
        Except.error e) ∧
    (∀ g, newConsumerGroup brokers groupID (newConsumerConfig base options) = Except.ok g →
      NewConsumer newConsumerGroup base brokers groupID topics handler options =
        Except.ok { group := g, topics := topics, handler := handler,
                    cancel := none, wgCount := 0 }) := by
  constructor <;> intro x hx <;> simp [NewConsumer, hx]

/-- An arbitrary concrete stand-in for what `sarama.NewConfig()` returns,
used to evaluate the construction theorems. -/
def baseConfig0 : SaramaConfig :=
  { clientID := "", version := ⟨0, 0, 0, 0⟩, consumerReturnErrors := false,
    groupHeartbeatInterval := 0, groupSessionTimeout := 0, groupRebalanceTimeout := 0,
    groupRebalanceStrategy := BalanceStrategy.range, offsetsAutoCommitEnable := false,
    offsetsAutoCommitInterval := 0, offsetsInitial := 0,
    netDialTimeout := 0, netReadTimeout := 0, netWriteTimeout := 0,
    netTLSEnable := false, netTLSInsecureSkipVerify := false,
    netSASLEnable := false, netSASLUser := "", netSASLPassword := "", netSASLMechanism := "" }

/-- Evaluation of `newConsumer_surfaces_group_error` at a group constructor
that fails. -/
theorem newConsumer_surfaces_group_error_witness :
    NewConsumer (fun _ _ _ => Except.error ⟨9⟩) baseConfig0 ["b:9092"] "g" ["t"]
      (fun _ _ => none) [] = Except.error ⟨9⟩ :=
  (newConsumer_surfaces_group_error (fun _ _ _ => Except.error ⟨9⟩) baseConfig0 ["b:9092"] "g"
    ["t"] (fun _ _ => none) []).1 ⟨9⟩ rfl

/-- C9: on a consumer as returned by `NewConsumer` — `Start` never called,
so `cancel` is nil and the wait-group counter is zero — `Close` does not
panic (the nil cancel is guarded), does not suspend (nothing was spawned),
and returns the result of closing the group. -/
theorem close_without_start_returns
    (newConsumerGroup : List String → String → SaramaConfig → Except GoError ConsumerGroup)
    (base : SaramaConfig) (brokers : List String) (groupID : String)
    (topics : List String) (handler : MessageHandler) (options : List ConsumerOption)
    (c : Consumer) (groupCloseErr : Option GoError)
    (hc : NewConsumer newConsumerGroup base brokers groupID topics handler options =
      Except.ok c) :
    Consumer.Close c groupCloseErr = CloseOutcome.returned groupCloseErr := by
  cases hg : newConsumerGroup brokers groupID (newConsumerConfig base options) with
  | error e => simp [NewConsumer, hg] at hc
  | ok g =>
    simp [NewConsumer, hg] at hc
    subst hc
    rfl

/-- Evaluation of `close_without_start_returns` at a concrete consumer. -/
theorem close_without_start_returns_witness :
    Consumer.Close
      { group := ⟨0⟩, topics := ["t"], handler := fun _ _ => none,
        cancel := none, wgCount := 0 } none = CloseOutcome.returned none :=
  close_without_start_returns (fun _ _ _ => Except.ok ⟨0⟩) baseConfig0 ["b:9092"] "g" ["t"]
    (fun _ _ => none) [] _ none rfl

/-- C10: in the `OFFSET_INITIAL` branch, every non-empty trimmed value
whose lower-casing is not `"oldest"` yields the newest-offset option —
unrecognized values map silently to the default, never to an error — and
that option sets the initial offset to `sarama.OffsetNewest`. -/
theorem offsetInitialEnv_unrecognized_is_newest (raw : String) :
    (goTrimSpace raw ≠ "" → goToLower (goTrimSpace raw) ≠ "oldest" →
      offsetInitialOptionFromEnv raw = some (WithInitialOffset OffsetNewest)) ∧
    (∀ cfg : SaramaConfig, (WithInitialOffset OffsetNewest cfg).offsetsInitial =
      OffsetNewest) := by
  constructor
  · intro h₁ h₂
    simp [offsetInitialOptionFromEnv, h₁, h₂]
  · intro cfg
    rfl

/-- Evaluation of `offsetInitialEnv_unrecognized_is_newest` at the
unrecognized value `"latest"`. -/
theorem offsetInitialEnv_unrecognized_is_newest_witness :
    offsetInitialOptionFromEnv "latest" = some (WithInitialOffset OffsetNewest) :=
  (offsetInitialEnv_unrecognized_is_newest "latest").1 (by decide) (by decide)

end KafkaLib
